import Mathlib

/-!
Verification of the BrainPreserve brain-threat scoring engine.

The canonical engine is `assets/scoring.js` (an IIFE exposing
`window.BT_SCORING.compute`).  Sibling drafts of the same engine live in the
unnamed files (`BT_Scoring` in one draft, a DOM renderer with inline
`compute` callbacks in another); where a claim targets a draft function we
embed that function as well.

Modelling conventions:
* JavaScript numbers are rationals (`ℚ`); `NaN` arises only through the
  `Number(...)` coercion of non-numeric strings and is modelled by `Option ℚ`
  (`none` = NaN / null result of `toNum(v, null)`).
* The response map is an association list `String → JSVal`; a key absent from
  the list models the JavaScript `undefined` lookup.
* Schema (config) fields are typed per the data contract: numeric fields are
  `ℚ` (wrapped in `Option` when the JSON field may be missing), band tables
  are lists.  Response values stay loosely typed (`JSVal`) because the engine
  coerces them at run time.
-/

namespace BrainThreat

/-- Model of a JavaScript value that can appear in the response map:
a number, a string, a boolean, or `null`.  `undefined` is represented by a
failed lookup (`Option.none`) rather than a constructor. -/
inductive JSVal where
  | num (q : ℚ)
  | str (s : String)
  | bool (b : Bool)
  | null
deriving DecidableEq, Repr

/-- Numeric value of a list of decimal digit characters (used to model the
JavaScript `Number(string)` coercion on decimal literals). -/
def digitsVal (l : List Char) : ℕ :=
  l.foldl (fun a c => a * 10 + (c.toNat - Char.toNat '0')) 0

/-- Model of the JavaScript `Number(string)` coercion restricted to plain
decimal literals: the empty string coerces to 0; an optional sign followed by
digits (with an optional fractional part) coerces to the denoted rational;
anything else is NaN (`none`).  This covers every string the engine and the
fixtures feed through `Number`. -/
def strToNum (s : String) : Option ℚ :=
  match s.toList with
  | [] => some 0
  | l =>
    let sg : ℚ × List Char :=
      match l with
      | '-' :: r => (-1, r)
      | '+' :: r => (1, r)
      | r => (1, r)
    let ip := sg.2.takeWhile (fun c => c != '.')
    let tl := sg.2.dropWhile (fun c => c != '.')
    match tl with
    | [] =>
      if !ip.isEmpty && ip.all Char.isDigit then some (sg.1 * digitsVal ip) else none
    | _ :: fp =>
      if (!ip.isEmpty || !fp.isEmpty) && ip.all Char.isDigit && fp.all Char.isDigit then
        some (sg.1 * ((digitsVal ip : ℚ) + (digitsVal fp : ℚ) / (10 : ℚ) ^ fp.length))
      else none

/-- Model of the JavaScript `Number(v)` coercion on our value model
(`none` = NaN). -/
def jsToNumber : JSVal → Option ℚ
  | .num q => some q
  | .str s => strToNum s
  | .bool b => some (if b then 1 else 0)
  | .null => some 0

/-- The flat response map: item key to raw answer value, as an association
list (JavaScript object with unique keys). -/
abbrev Responses := List (String × JSVal)

/-- Model of `responses[key]`: `none` is JavaScript `undefined`. -/
def getResp (rs : Responses) (k : String) : Option JSVal :=
  rs.lookup k

/-- Model of scoring.js `toNum(v, null)`: the numeric value of `v` when
`isNum(v)` (`v` is neither `null` nor `undefined` and `Number(v)` is not NaN),
otherwise `null` (`none`). -/
def toNumOpt : Option JSVal → Option ℚ
  | none => none
  | some .null => none
  | some v => jsToNumber v

/-- Model of scoring.js `toNum(v, d)` with a numeric default `d`. -/
def toNumD (o : Option JSVal) (d : ℚ) : ℚ :=
  (toNumOpt o).getD d

/-- Model of scoring.js `isNum(v)` for a looked-up response value. -/
def isNumV (o : Option JSVal) : Bool :=
  (toNumOpt o).isSome

/-- Model of scoring.js `clamp(v, lo, hi) = Math.max(lo, Math.min(hi, v))`. -/
def clamp (v lo hi : ℚ) : ℚ :=
  max lo (min hi v)

/-- Model of JavaScript `Math.round`: round half toward positive infinity. -/
def jsRound (q : ℚ) : ℤ :=
  (q + 1 / 2).floor

/-- A band entry from the config: `{min, max, label, level}`, any field may be
missing in the JSON. -/
structure Band where
  min : Option ℚ := none
  max : Option ℚ := none
  label : Option String := none
  level : Option String := none
deriving DecidableEq, Repr

/-- The object returned by `bandFromCuts`: on a match, the band's label/level
(defaulted to the empty string) together with its `min`/`max`; on no match,
the empty label/level pair (its `min`/`max` fields are absent, modelled here
as `none`). -/
structure BandResult where
  label : String := ""
  level : String := ""
  min : Option ℚ := none
  max : Option ℚ := none
deriving DecidableEq, Repr

/-- The matching test of scoring.js `bandFromCuts`:
`(b.min === undefined || value >= b.min) && (b.max === undefined || value <= b.max)`. -/
def bandMatches (value : ℚ) (b : Band) : Bool :=
  (match b.min with
   | none => true
   | some m => decide (value ≥ m)) &&
  (match b.max with
   | none => true
   | some m => decide (value ≤ m))

/-- scoring.js `bandFromCuts(value, bands)`: scan the band list in declaration
order and return the first matching band's label/level (with its cut points);
return the empty label/level pair when no band matches. -/
def bandFromCuts (value : ℚ) : List Band → BandResult
  | [] => {}
  | b :: rest =>
    if bandMatches value b then
      { label := b.label.getD "", level := b.level.getD "", min := b.min, max := b.max }
    else
      bandFromCuts value rest

/-- scoring.js `bandFromPercent(pct, percentBands)`: percent values go through
the same resolver. -/
def bandFromPercent (pct : ℚ) (percentBands : List Band) : BandResult :=
  bandFromCuts pct percentBands

/-- One option of a weighted-select item: `{value, label}` (label is
irrelevant to scoring). -/
structure OptionDef where
  value : Option ℚ := none
deriving DecidableEq, Repr

/-- One item of an instrument.  Only the fields scoring.js reads are kept:
`key`, the Likert `reverse` flag, the weighted-select `options`, the yes/no
scores, and the radio `maxValue`/`max` pair. -/
structure Item where
  key : String
  reverse : Bool := false
  options : List OptionDef := []
  scoreIfChecked : Option ℚ := none
  scoreIfUnchecked : Option ℚ := none
  maxValue : Option ℚ := none
  max : Option ℚ := none
deriving DecidableEq, Repr

/-- The `inst.likert` object: `{scaleMax, bands}`. -/
structure LikertCfg where
  scaleMax : Option ℚ := none
  bands : List Band := []
deriving DecidableEq, Repr

/-- One medication inside a class: `{key, weight}`. -/
structure Med where
  key : String
  weight : Option ℚ := none
deriving DecidableEq, Repr

/-- One medication class: `{key, title, meds}`. -/
structure MedClass where
  key : String := ""
  meds : List Med := []
deriving DecidableEq, Repr

/-- A field reference of the demographics/BMI instruments: `{key}`. -/
structure FieldRef where
  key : String := ""
deriving DecidableEq, Repr

/-- The `inst.fields` object of the demographics/BMI instruments. -/
structure DemoFields where
  age : Option FieldRef := none
  height : Option FieldRef := none
  weight : Option FieldRef := none
deriving DecidableEq, Repr

/-- An instrument schema node, carrying every field some evaluator reads.
A JSON array field that may be missing or non-array is modelled directly as a
list (scoring.js treats both the same way, via `Array.isArray` guards). -/
structure Instrument where
  type : String
  key : String := ""
  title : String := ""
  items : List Item := []
  likert : Option LikertCfg := none
  bands : List Band := []
  percentBands : List Band := []
  classes : List MedClass := []
  fields : Option DemoFields := none
  ageBands : List Band := []
  bmiBands : List Band := []
deriving DecidableEq, Repr

/-- Result record shared by the Likert, radio and yes/no evaluators
(their returned objects have the same shape; the `type` string is carried by
the `InstResult` constructor). -/
structure SumRes where
  total : ℚ
  answered : ℕ
  max : ℚ
  bands : List Band
  band : BandResult
deriving DecidableEq, Repr

/-- Result record of `computeWeightedSelect`. -/
structure WSRes where
  total : ℚ
  max : ℚ
  percent : ℚ
  answered : ℕ
  percentBands : List Band
  band : BandResult
deriving DecidableEq, Repr

/-- Result record of `computeMedications` (note: no `max` field). -/
structure MedRes where
  total : ℚ
  checkedCount : ℕ
  bands : List Band
  band : BandResult
deriving DecidableEq, Repr

/-- Result record of `computeDemographics`. -/
structure DemoRes where
  age : Option ℚ
  ageBand : BandResult
  bmi : Option ℚ
  bmiBand : BandResult
deriving DecidableEq, Repr

/-- Result record of `computeBmi`. -/
structure BmiRes where
  bmi : Option ℚ
  bmiBand : BandResult
deriving DecidableEq, Repr

/-- The dispatcher's result: one constructor per `type` tag the evaluators
emit, plus the `unknown` fallback carrying its human-readable note. -/
inductive InstResult where
  | likert (r : SumRes)
  | radio (r : SumRes)
  | ynList (r : SumRes)
  | weightedSelect (r : WSRes)
  | medications (r : MedRes)
  | demographics (r : DemoRes)
  | bmi (r : BmiRes)
  | unknown (note : String)
deriving DecidableEq, Repr

/-- The `type` string field of the result object each evaluator returns. -/
def InstResult.typeTag : InstResult → String
  | .likert _ => "likert"
  | .radio _ => "radio"
  | .ynList _ => "yn_list"
  | .weightedSelect _ => "weighted_select"
  | .medications _ => "medications"
  | .demographics _ => "demographics"
  | .bmi _ => "bmi"
  | .unknown _ => "unknown"

/-- The `total` field of a result object, when present (`undefined` for the
demographics, bmi and unknown results). -/
def InstResult.total? : InstResult → Option ℚ
  | .likert r => some r.total
  | .radio r => some r.total
  | .ynList r => some r.total
  | .weightedSelect r => some r.total
  | .medications r => some r.total
  | _ => none

/-- The `max` field of a result object, when present (the medications result
has no `max` field). -/
def InstResult.max? : InstResult → Option ℚ
  | .likert r => some r.max
  | .radio r => some r.max
  | .ynList r => some r.max
  | .weightedSelect r => some r.max
  | _ => none

/-- Loop body of `computeLikert`: skip an item whose response is not numeric
(`toNum(v, null) === null`), otherwise add the (possibly reverse-scored and
clamped) value and bump the answered count. -/
def likertStep (rs : Responses) (sm : ℚ) (acc : ℚ × ℕ) (it : Item) : ℚ × ℕ :=
  match toNumOpt (getResp rs it.key) with
  | none => acc
  | some raw =>
    let val := if it.reverse then clamp (sm - raw) 0 sm else clamp raw 0 sm
    (acc.1 + val, acc.2 + 1)

/-- scoring.js `computeLikert(inst, responses)`: sum clamped (reverse-scored)
Likert values; `max` is item count times `scaleMax` (default 4); the band is
resolved from the total through `inst.likert?.bands || []`. -/
def computeLikert (inst : Instrument) (rs : Responses) : SumRes :=
  let sm := ((inst.likert.bind LikertCfg.scaleMax).getD 4 : ℚ)
  let ta := inst.items.foldl (likertStep rs sm) (0, 0)
  let bands := (inst.likert.map LikertCfg.bands).getD []
  { total := ta.1, answered := ta.2, max := (inst.items.length : ℚ) * sm,
    bands := bands, band := bandFromCuts ta.1 bands }

/-- Loop body of `computeRadio`: skip only a missing (`undefined`) or
empty-string response; any other present value is counted as answered and
contributes `toNum(raw, 0)`. -/
def radioStep (rs : Responses) (acc : ℚ × ℕ) (it : Item) : ℚ × ℕ :=
  match getResp rs it.key with
  | none => acc
  | some (.str "") => acc
  | some v => (acc.1 + toNumD (some v) 0, acc.2 + 1)

/-- scoring.js `computeRadio(inst, responses)`: numeric sum of the selected
radio values; `max` is the largest per-item `maxValue ?? max ?? 0`; the band
is resolved from the total through `inst.bands || []`. -/
def computeRadio (inst : Instrument) (rs : Responses) : SumRes :=
  let ta := inst.items.foldl (radioStep rs) (0, 0)
  let mx := inst.items.foldl (fun m it => max m ((it.maxValue.orElse fun _ => it.max).getD 0)) 0
  { total := ta.1, answered := ta.2, max := mx,
    bands := inst.bands, band := bandFromCuts ta.1 inst.bands }

/-- The checkbox sentinel test shared by `computeYnList` and
`computeMedications`: `v === "1" || v === 1 || v === true || v === "true"`. -/
def isCheckedVal (v : JSVal) : Bool :=
  v == .str "1" || v == .num 1 || v == .bool true || v == .str "true"

/-- Loop body of `computeYnList`: every present response counts as answered;
a checked response contributes `toNum(it.scoreIfChecked, 0)`, any other
present response contributes `toNum(it.scoreIfUnchecked, 0)`. -/
def ynStep (rs : Responses) (acc : ℚ × ℕ) (it : Item) : ℚ × ℕ :=
  match getResp rs it.key with
  | none => acc
  | some v =>
    let pts := if isCheckedVal v then it.scoreIfChecked.getD 0 else it.scoreIfUnchecked.getD 0
    (acc.1 + pts, acc.2 + 1)

/-- scoring.js `computeYnList(inst, responses)`: sum the checked/unchecked
points; `max` sums the per-item better of the two scores; the band is
resolved from the total through `inst.bands || []`. -/
def computeYnList (inst : Instrument) (rs : Responses) : SumRes :=
  let ta := inst.items.foldl (ynStep rs) (0, 0)
  let mx := inst.items.foldl
    (fun acc it => acc + max (it.scoreIfChecked.getD 0) (it.scoreIfUnchecked.getD 0)) 0
  { total := ta.1, answered := ta.2, max := mx,
    bands := inst.bands, band := bandFromCuts ta.1 inst.bands }

/-- Largest option value of a weighted-select item:
`options.reduce((m, op) => Math.max(m, toNum(op.value, 0)), 0)`. -/
def maxOptValue (it : Item) : ℚ :=
  it.options.foldl (fun m op => max m (op.value.getD 0)) 0

/-- Loop body of `computeWeightedSelect`: every item contributes its largest
option value to `max`; an answered item (numeric response) additionally
contributes its clamped selection to `total`. -/
def wsStep (rs : Responses) (acc : ℚ × ℚ × ℕ) (it : Item) : ℚ × ℚ × ℕ :=
  let mo := maxOptValue it
  match toNumOpt (getResp rs it.key) with
  | none => (acc.1, acc.2.1 + mo, acc.2.2)
  | some sel => (acc.1 + clamp sel 0 mo, acc.2.1 + mo, acc.2.2 + 1)

/-- scoring.js `computeWeightedSelect(inst, responses)`: clamped sum of the
selected option values, sum of the per-item maxima, percent of max (0 when
`max` is 0), and the band resolved from the percent through
`inst.percentBands || []`. -/
def computeWeightedSelect (inst : Instrument) (rs : Responses) : WSRes :=
  let tma := inst.items.foldl (wsStep rs) (0, 0, 0)
  let pct := if tma.2.1 > 0 then tma.1 / tma.2.1 * 100 else 0
  { total := tma.1, max := tma.2.1, percent := pct, answered := tma.2.2,
    percentBands := inst.percentBands, band := bandFromPercent pct inst.percentBands }

/-- Loop body of `computeMedications` over the medications of one class. -/
def medStep (rs : Responses) (acc : ℚ × ℕ) (med : Med) : ℚ × ℕ :=
  match getResp rs med.key with
  | some v => if isCheckedVal v then (acc.1 + med.weight.getD 0, acc.2 + 1) else acc
  | none => acc

/-- scoring.js `computeMedications(inst, responses)`: sum the weights of the
checked medications across all classes; the band is resolved from the total
through `inst.bands || []`. -/
def computeMedications (inst : Instrument) (rs : Responses) : MedRes :=
  let ta := inst.classes.foldl (fun acc cls => cls.meds.foldl (medStep rs) acc) (0, 0)
  { total := ta.1, checkedCount := ta.2, bands := inst.bands,
    band := bandFromCuts ta.1 inst.bands }

/-- The truthiness guard `if (hCm && wKg)` of the BMI computation: both
looked-up values are numeric (`toNum(v, null) !== null`) and nonzero.
A negative value is truthy in JavaScript and passes this guard. -/
def bmiInputsTruthy (h w : Option ℚ) : Bool :=
  match h, w with
  | some hv, some wv => hv != 0 && wv != 0
  | _, _ => false

/-- The BMI value scoring.js computes from height (cm) and weight (kg):
`Math.round((wKg / (hCm/100)²) * 10) / 10`. -/
def bmiValue (hCm wKg : ℚ) : ℚ :=
  (jsRound (wKg / ((hCm / 100) * (hCm / 100)) * 10) : ℚ) / 10

/-- The truthiness guard `inst.fields?.height?.key && inst.fields?.weight?.key`
(a missing object or an empty-string key is falsy). -/
def heightWeightKeys (inst : Instrument) : Option (String × String) :=
  match inst.fields with
  | none => none
  | some f =>
    match f.height, f.weight with
    | some hk, some wk => if hk.key != "" && wk.key != "" then some (hk.key, wk.key) else none
    | _, _ => none

/-- The shared height/weight branch of `computeDemographics` and
`computeBmi`: look the two fields up, and when both are truthy compute the
rounded BMI and resolve it against `inst.bmiBands || []`. -/
def bmiBranch (inst : Instrument) (rs : Responses) : Option ℚ × BandResult :=
  match heightWeightKeys inst with
  | none => (none, {})
  | some ks =>
    let hCm := toNumOpt (getResp rs ks.1)
    let wKg := toNumOpt (getResp rs ks.2)
    if bmiInputsTruthy hCm wKg then
      let b := bmiValue (hCm.getD 0) (wKg.getD 0)
      (some b, bandFromCuts b inst.bmiBands)
    else (none, {})

/-- scoring.js `computeDemographics(inst, responses)`: the age is passed
through and banded when numeric; the BMI branch is shared with `computeBmi`. -/
def computeDemographics (inst : Instrument) (rs : Responses) : DemoRes :=
  let ageRes : Option ℚ × BandResult :=
    match inst.fields with
    | none => (none, {})
    | some f =>
      match f.age with
      | none => (none, {})
      | some ak =>
        if ak.key != "" then
          match toNumOpt (getResp rs ak.key) with
          | some a => (some a, bandFromCuts a inst.ageBands)
          | none => (none, {})
        else (none, {})
  let bres := bmiBranch inst rs
  { age := ageRes.1, ageBand := ageRes.2, bmi := bres.1, bmiBand := bres.2 }

/-- scoring.js `computeBmi(inst, responses)`: the standalone BMI instrument. -/
def computeBmi (inst : Instrument) (rs : Responses) : BmiRes :=
  let bres := bmiBranch inst rs
  { bmi := bres.1, bmiBand := bres.2 }

/-- The `type` tags the dispatcher recognizes. -/
def isRecognizedType (t : String) : Bool :=
  t == "demographics" || t == "bmi" || t == "yn_list" || t == "likert" ||
  t == "radio" || t == "weighted_select" || t == "medications"

/-- scoring.js `computeInstrument(inst, responses)`: dispatch on the `type`
tag; an unrecognized tag yields the `unknown` result with its note. -/
def computeInstrument (inst : Instrument) (rs : Responses) : InstResult :=
  if inst.type = "demographics" then .demographics (computeDemographics inst rs)
  else if inst.type = "bmi" then .bmi (computeBmi inst rs)
  else if inst.type = "yn_list" then .ynList (computeYnList inst rs)
  else if inst.type = "likert" then .likert (computeLikert inst rs)
  else if inst.type = "radio" then .radio (computeRadio inst rs)
  else if inst.type = "weighted_select" then .weightedSelect (computeWeightedSelect inst rs)
  else if inst.type = "medications" then .medications (computeMedications inst rs)
  else .unknown ("Unsupported instrument type: " ++ inst.type)

/-- One entry of a category's `instResults` array:
`{key: inst.key, title: inst.title, sub?: sub.key, ...result}`. -/
structure KeyedResult where
  key : String
  title : String
  sub : Option String := none
  result : InstResult
deriving DecidableEq, Repr

/-- The flat-instruments loop of `compute`: evaluate each instrument of a
category in order and tag the result with the instrument's key and title. -/
def evalFlat (insts : List Instrument) (rs : Responses) : List KeyedResult :=
  insts.map fun inst => { key := inst.key, title := inst.title, result := computeInstrument inst rs }

/-- A sub-accordion of a category: `{key, instruments}`. -/
structure SubAccordion where
  key : String := ""
  instruments : List Instrument := []
deriving DecidableEq, Repr

/-- The sub-accordion loop of `compute`: evaluate every instrument of every
sub-accordion, tagging each result with its sub-accordion key as well. -/
def evalSubs (subs : List SubAccordion) (rs : Responses) : List KeyedResult :=
  subs.foldr
    (fun sub acc =>
      (sub.instruments.map fun inst =>
        { key := inst.key, title := inst.title, sub := some sub.key,
          result := computeInstrument inst rs }) ++ acc)
    []

/-- A category summary rule from the config:
`{mode, sources, bands?, percentBands?}` (the two band tables are kept
optional because `summaryDef.percentBands || summaryDef.bands || []` treats a
present empty array as present). -/
structure SummaryDef where
  mode : String := ""
  sources : List String := []
  percentBands : Option (List Band) := none
  bands : Option (List Band) := none
deriving DecidableEq, Repr

/-- The `byKey` lookup of `summarizeCategory`: results are written into an
object keyed by `r.key`, so a later result with the same key overwrites an
earlier one. -/
def lookupLast (results : List KeyedResult) (k : String) : Option KeyedResult :=
  results.foldl (fun acc r => if r.key == k then some r else acc) none

/-- The `category_summary` object `summarizeCategory` returns. -/
structure SummaryRes where
  value : Option ℚ
  percent : Option ℚ
  band : BandResult
deriving DecidableEq, Repr

/-- scoring.js `summarizeCategory(catKey, catDef, instResults)`: `null` when
the category declares no summary rule; in `sum` mode add the numeric `total`
fields of the named sources' results (skipping absent results and non-numeric
totals); in `percent` mode accumulate `toNum(total, 0)` and `toNum(max, 0)`
and compute percent-of-max (0 when the accumulated max is 0); band-resolve
through `percentBands || bands || []`.  The source function reads only
`catDef.summary` from its category argument, which is what is passed here. -/
def summarizeCategory (summaryDef? : Option SummaryDef) (instResults : List KeyedResult) :
    Option SummaryRes :=
  match summaryDef? with
  | none => none
  | some sd =>
    let value : Option ℚ :=
      if sd.mode = "sum" then
        some (sd.sources.foldl
          (fun v k =>
            match lookupLast instResults k with
            | none => v
            | some r =>
              match r.result.total? with
              | some t => v + t
              | none => v)
          0)
      else none
    let percent : Option ℚ :=
      if sd.mode = "sum" then none
      else if sd.mode = "percent" then
        let tm := sd.sources.foldl
          (fun (tm : ℚ × ℚ) k =>
            match lookupLast instResults k with
            | none => tm
            | some r => (tm.1 + (r.result.total?.getD 0), tm.2 + (r.result.max?.getD 0)))
          (0, 0)
        some (if tm.2 > 0 then tm.1 / tm.2 * 100 else 0)
      else none
    let bandsUsed := sd.percentBands.getD (sd.bands.getD [])
    let band :=
      match percent, value with
      | some p, _ => bandFromPercent p bandsUsed
      | none, some v => bandFromCuts v bandsUsed
      | none, none => {}
    some { value := value, percent := percent, band := band }

/-- The optional overall aggregation rule: `config.overall`. -/
structure OverallCfg where
  computeStr : Option String := none
  mode : String := ""
  percentBands : List Band := []
deriving DecidableEq, Repr

/-- One entry of the output's `sections` array. -/
structure Section where
  key : String
  title : String
  instruments : List KeyedResult
  summary : Option SummaryRes
deriving DecidableEq, Repr

/-- The output's `overall` field: the empty object, or the percent-mode
aggregate `{mode: "percent", percent, band}`. -/
inductive Overall where
  | empty
  | percent (pct : ℚ) (band : BandResult)
deriving DecidableEq, Repr

/-- The result tree `compute` returns (`debug.missingInstruments` is
initialized empty and never written). -/
structure Output where
  sections : List Section
  overall : Overall
  missingInstruments : List String := []
deriving DecidableEq, Repr

/-- The overall-aggregation tail of `compute`: when `config.overall?.compute`
is a string the initial empty overall is kept; in `percent` mode the totals
and maxes of every `weighted_select` result across all sections are pooled. -/
def overallOf (oc? : Option OverallCfg) (sections : List Section) : Overall :=
  match oc? with
  | none => .empty
  | some oc =>
    if oc.computeStr.isSome then .empty
    else if oc.mode = "percent" then
      let tm := sections.foldl
        (fun tm sec =>
          sec.instruments.foldl
            (fun (tm : ℚ × ℚ) kr =>
              match kr.result with
              | .weightedSelect w => (tm.1 + w.total, tm.2 + w.max)
              | _ => tm)
            tm)
        (0, 0)
      let pct := if tm.2 > 0 then tm.1 / tm.2 * 100 else 0
      .percent pct (bandFromPercent pct oc.percentBands)
    else .empty

/-- A category node of the config. -/
structure Category where
  key : String := ""
  title : String := ""
  instruments : List Instrument := []
  subAccordions : List SubAccordion := []
  summary : Option SummaryDef := none
deriving DecidableEq, Repr

/-- The config object of the payload. -/
structure Config where
  categories : List Category := []
  overall : Option OverallCfg := none
deriving DecidableEq, Repr

/-- The payload handed to `compute`: `{config, responses}`, either field may
be missing. -/
structure Payload where
  config : Option Config := none
  responses : Option Responses := none
deriving DecidableEq, Repr

/-- The per-category body of `compute`: flat instrument results, then
sub-accordion results, then the optional category summary over both. -/
def evalCategory (cat : Category) (rs : Responses) : Section :=
  let instResults := evalFlat cat.instruments rs ++ evalSubs cat.subAccordions rs
  { key := cat.key, title := cat.title, instruments := instResults,
    summary := summarizeCategory cat.summary instResults }

/-- scoring.js `compute(payload)` on a well-typed payload: a missing payload,
config or response map defaults to empty (`payload?.config || {}`,
`payload?.responses || {}`), every category is evaluated in order, and the
optional overall aggregate is appended.  The function is total: no input
reaching this signature can make it throw. -/
def compute (payload : Option Payload) : Output :=
  let config := (payload.bind Payload.config).getD {}
  let rs := (payload.bind Payload.responses).getD []
  let sections := config.categories.map fun cat => evalCategory cat rs
  { sections := sections, overall := overallOf config.overall sections }

/-- One select row of the draft renderer's weighted-select instrument: the
schema weight (`it.weight`, possibly missing) and the selected option value
(`none` models the unanswered empty-string select value). -/
structure WSRow where
  weight : Option ℚ := none
  selected : Option ℚ := none
deriving DecidableEq, Repr

/-- The effective weight of a select row: the renderer writes
`data-weight = String(it.weight || 1)` and `compute` reads
`Number(attr || 1)`, so a missing or zero weight becomes 1. -/
def wsWeight (w : Option ℚ) : ℚ :=
  match w with
  | some q => if q = 0 then 1 else q
  | none => 1

/-- The draft renderer's `R.weighted_select` inner `compute`: per select row,
`score += Number(sel.value || 0) * weight` and `max += 3 * weight`; it emits
`{score: Math.round(score), max: Math.round(max),
pct: max ? Math.round(score/max*100) : 0}`. -/
def wsCompute (rows : List WSRow) : ℤ × ℤ × ℤ :=
  let sm := rows.foldl
    (fun (sm : ℚ × ℚ) row =>
      let w := wsWeight row.weight
      (sm.1 + row.selected.getD 0 * w, sm.2 + 3 * w))
    (0, 0)
  let pct : ℤ := if sm.2 = 0 then 0 else jsRound (sm.1 / sm.2 * 100)
  (jsRound sm.1, jsRound sm.2, pct)

/-- A category node as JavaScript sees it: the element lists may hold `null`
entries (`none`), and a missing or non-array `instruments`/`subAccordions`
field is `none`.  Used to model which malformed inputs make `compute`
throw. -/
structure CategoryE where
  key : String := ""
  title : String := ""
  instruments : Option (List (Option Instrument)) := none
  subAccordions : Option (List (Option SubAccordion)) := none
  summary : Option SummaryDef := none
deriving DecidableEq, Repr

/-- A config whose category array may hold `null` entries. -/
structure ConfigE where
  categories : Option (List (Option CategoryE)) := none
  overall : Option OverallCfg := none
deriving DecidableEq, Repr

/-- The argument `compute` receives at its JavaScript boundary: `undefined`,
a non-object primitive, or an object with optional `config`/`responses`
fields.  Optional chaining makes the first two cases equivalent to an empty
payload rather than an error. -/
inductive JSArg where
  | undef
  | nonObj (v : JSVal)
  | obj (config : Option ConfigE) (responses : Option Responses)
deriving DecidableEq, Repr

/-- The flat-instruments loop over a possibly `null`-holding array:
`computeInstrument(null, rs)` would read `null.type`, a TypeError. -/
def evalFlatE (rs : Responses) : List (Option Instrument) → Except String (List KeyedResult)
  | [] => .ok []
  | none :: _ => .error "TypeError: reading properties of null"
  | some inst :: rest =>
    (evalFlatE rs rest).map fun l =>
      { key := inst.key, title := inst.title, result := computeInstrument inst rs } :: l

/-- The sub-accordion loop over a possibly `null`-holding array: a `null`
sub-accordion makes `Array.isArray(sub.instruments)` throw. -/
def evalSubsE (rs : Responses) : List (Option SubAccordion) → Except String (List KeyedResult)
  | [] => .ok []
  | none :: _ => .error "TypeError: reading properties of null"
  | some sub :: rest => do
    let tail ← evalSubsE rs rest
    pure ((sub.instruments.map fun inst =>
      { key := inst.key, title := inst.title, sub := some sub.key,
        result := computeInstrument inst rs }) ++ tail)

/-- The category loop of `compute` over a possibly `null`-holding array: a
`null` category makes `Array.isArray(cat.instruments)` throw. -/
def evalCategoriesE (rs : Responses) : List (Option CategoryE) → Except String (List Section)
  | [] => .ok []
  | none :: _ => .error "TypeError: reading properties of null"
  | some cat :: rest => do
    let flat ← evalFlatE rs (cat.instruments.getD [])
    let subs ← evalSubsE rs (cat.subAccordions.getD [])
    let tail ← evalCategoriesE rs rest
    let instResults := flat ++ subs
    pure ({ key := cat.key, title := cat.title, instruments := instResults,
            summary := summarizeCategory cat.summary instResults } :: tail)

/-- scoring.js `compute(payload)` at its JavaScript boundary: any exception
the loop bodies raise (a `null` node in a traversed array) escapes as
`Except.error`; everything else produces the result tree.  An absent or
non-object argument degrades via optional chaining to the empty payload. -/
def computeE (arg : JSArg) : Except String Output := do
  let cfg : ConfigE :=
    (match arg with
     | .obj c _ => c
     | _ => none).getD {}
  let rs : Responses :=
    (match arg with
     | .obj _ r => r
     | _ => none).getD []
  let sections ← evalCategoriesE rs (cfg.categories.getD [])
  pure { sections := sections, overall := overallOf cfg.overall sections }

/-- Injection of a well-typed sub-accordion list into the `null`-aware model. -/
def subsToE (subs : List SubAccordion) : List (Option SubAccordion) :=
  subs.map some

/-- Injection of a well-typed category into the `null`-aware model. -/
def catToE (cat : Category) : CategoryE :=
  { key := cat.key, title := cat.title,
    instruments := some (cat.instruments.map some),
    subAccordions := some (subsToE cat.subAccordions),
    summary := cat.summary }

/-- Injection of a well-typed config into the `null`-aware model. -/
def cfgToE (cfg : Config) : ConfigE :=
  { categories := some (cfg.categories.map (fun c => some (catToE c))),
    overall := cfg.overall }

/-- Specification-side per-item Likert contribution: 0 for a non-numeric
response, otherwise the clamped (possibly reverse-scored) value. -/
def likertContrib (rs : Responses) (sm : ℚ) (it : Item) : ℚ :=
  match toNumOpt (getResp rs it.key) with
  | none => 0
  | some raw => if it.reverse then clamp (sm - raw) 0 sm else clamp raw 0 sm

/-- Specification-side answered test for numeric-only evaluators: the
looked-up response coerces to a number. -/
def numAnswered (rs : Responses) (it : Item) : Bool :=
  (toNumOpt (getResp rs it.key)).isSome

/-- Specification-side answered test of the radio evaluator: any present
response other than the empty string. -/
def radioAnswered (rs : Responses) (it : Item) : Bool :=
  match getResp rs it.key with
  | none => false
  | some (.str "") => false
  | some _ => true

/-- Specification-side per-item radio contribution: `toNum(raw, 0)` for a
counted response (0 when the present response is non-numeric), 0 otherwise. -/
def radioContrib (rs : Responses) (it : Item) : ℚ :=
  match getResp rs it.key with
  | none => 0
  | some (.str "") => 0
  | some v => toNumD (some v) 0

/-- Specification-side per-item yes/no contribution: a present response
scores `scoreIfChecked` when it is a checked sentinel, `scoreIfUnchecked`
otherwise; a missing response contributes 0. -/
def ynContrib (rs : Responses) (it : Item) : ℚ :=
  match getResp rs it.key with
  | none => 0
  | some v => if isCheckedVal v then it.scoreIfChecked.getD 0 else it.scoreIfUnchecked.getD 0

/-- Specification-side per-item weighted-select contribution:
`clamp(selected, 0, maxOptValue)` for an answered item, 0 otherwise. -/
def wsContrib (rs : Responses) (it : Item) : ℚ :=
  match toNumOpt (getResp rs it.key) with
  | none => 0
  | some sel => clamp sel 0 (maxOptValue it)

/-- Specification-side per-source summary contribution: the source's numeric
`total` (0 when its result is absent or carries no numeric total). -/
def sourceTotal (results : List KeyedResult) (k : String) : ℚ :=
  (((lookupLast results k).bind fun r => r.result.total?).getD 0)

/-- Specification-side per-source summary `max` contribution. -/
def sourceMax (results : List KeyedResult) (k : String) : ℚ :=
  (((lookupLast results k).bind fun r => r.result.max?).getD 0)

/-- Fixture for the band resolver: two overlapping bands, the first declared
covering 0–10 and the second 3–7. -/
def bandsOverlap : List Band :=
  [{ min := some 0, max := some 10, label := some "A", level := some "low" },
   { min := some 3, max := some 7, label := some "B", level := some "high" }]

/-- Fixture for scenario A: a 4-item Likert instrument, scaleMax 4, items 2
and 3 reverse-scored. -/
def instScenA : Instrument :=
  { type := "likert", key := "scenA",
    items := [{ key := "q1" }, { key := "q2", reverse := true },
              { key := "q3", reverse := true }, { key := "q4" }],
    likert := some { scaleMax := some 4 } }

/-- Fixture for scenario A: raw answers `[1,1,1,1]`. -/
def respScenA : Responses :=
  [("q1", .num 1), ("q2", .num 1), ("q3", .num 1), ("q4", .num 1)]

/-- Fixture for scenario C (draft renderer): two weighted-select rows with
weights 1 and 2 and selections 3 and 0. -/
def rowsScenC : List WSRow :=
  [{ weight := some 1, selected := some 3 }, { weight := some 2, selected := some 0 }]

/-- Fixture for scenario E: a weighted-select result with total 6 and max 12. -/
def krW1 : KeyedResult :=
  { key := "w1", title := "", result := .weightedSelect
      { total := 6, max := 12, percent := 50, answered := 3, percentBands := [], band := {} } }

/-- Fixture for scenario E: a weighted-select result with total 3 and max 9. -/
def krW2 : KeyedResult :=
  { key := "w2", title := "", result := .weightedSelect
      { total := 3, max := 9, percent := 100 / 3, answered := 2, percentBands := [], band := {} } }

/-- Fixture for scenario E: a demographics result, which carries no numeric
`total` and must be skipped by a sum-mode summary. -/
def krDemo : KeyedResult :=
  { key := "demo", title := "", result := .demographics
      { age := some 70, ageBand := {}, bmi := none, bmiBand := {} } }

/-- Fixture: the percent-mode summary rule over the two scenario-E sources. -/
def sdPercentE : SummaryDef :=
  { mode := "percent", sources := ["w1", "w2"] }

/-- Fixture: a sum-mode summary rule naming both weighted-select sources, a
source with no result, and a source whose result has no numeric total. -/
def sdSumE : SummaryDef :=
  { mode := "sum", sources := ["w1", "missing", "demo", "w2"] }

/-- Fixture: an instrument with an unrecognized type tag. -/
def instBogus : Instrument :=
  { type := "quiz", key := "bogus", title := "Bogus" }

/-- Fixture: a well-formed sibling Likert instrument. -/
def instSibling : Instrument :=
  { type := "likert", key := "sib",
    items := [{ key := "s1" }],
    likert := some { scaleMax := some 4 } }

/-- Fixture: a Likert instrument with an empty item list whose band table
contains a band covering 0. -/
def instC7 : Instrument :=
  { type := "likert", key := "c7",
    likert := some { scaleMax := some 4,
                     bands := [{ min := some 0, max := some 5, label := some "Low" }] } }

/-- Fixture: an unanswered weighted-select instrument with one item (max
option value 3) and a percent band covering 0. -/
def instC7w : Instrument :=
  { type := "weighted_select", key := "c7w",
    items := [{ key := "k", options := [{ value := some 3 }] }],
    percentBands := [{ min := some 0, max := some 20, label := some "Minimal" }] }

/-- Fixture: a one-item radio instrument. -/
def instRadioX : Instrument :=
  { type := "radio", key := "rx", items := [{ key := "q" }] }

/-- Fixture: a present but non-numeric response for the radio item. -/
def respRadioX : Responses :=
  [("q", .str "abc")]

/-- Fixture: a standalone BMI instrument with height/weight field keys and a
band table covering every computed value. -/
def instBmiX : Instrument :=
  { type := "bmi", key := "bmix",
    fields := some { height := some { key := "h" }, weight := some { key := "w" } },
    bmiBands := [{ min := some 0, max := some 100, label := some "computed" }] }

/-- Fixture: a negative height with a positive weight. -/
def respBmiNeg : Responses :=
  [("h", .num (-170)), ("w", .num 70)]

/-- Fixture: a positive height and weight. -/
def respBmiPos : Responses :=
  [("h", .num 170), ("w", .num 70)]

/-- Fixture: a zero weight with a positive height. -/
def respBmiZero : Responses :=
  [("h", .num 170), ("w", .num 0)]

/-- Fixture: a structurally present payload whose `categories` array holds a
single `null` entry. -/
def argNullCategory : JSArg :=
  .obj (some { categories := some [none] }) none

instance {ε α : Type} [DecidableEq ε] [DecidableEq α] : DecidableEq (Except ε α) := fun a b =>
  match a, b with
  | .ok x, .ok y => if h : x = y then isTrue (by rw [h]) else isFalse (by simp [h])
  | .error x, .error y => if h : x = y then isTrue (by rw [h]) else isFalse (by simp [h])
  | .ok _, .error _ => isFalse (by simp)
  | .error _, .ok _ => isFalse (by simp)

/-- The Likert loop computes, over any start accumulator, the start plus the
per-item contributions and the count of numerically answered items. -/
theorem likert_foldl_eq (rs : Responses) (sm : ℚ) (l : List Item) (t : ℚ) (a : ℕ) :
    l.foldl (likertStep rs sm) (t, a) =
      (t + (l.map (likertContrib rs sm)).sum, a + l.countP (numAnswered rs)) := by
  induction l generalizing t a with
  | nil => simp
  | cons x xs ih =>
    rw [List.foldl_cons]
    cases h : toNumOpt (getResp rs x.key) with
    | none => simp [likertStep, likertContrib, numAnswered, h, ih, Prod.mk.injEq, add_assoc, add_comm, add_left_comm]
    | some raw => simp [likertStep, likertContrib, numAnswered, h, ih, Prod.mk.injEq, add_assoc, add_comm, add_left_comm]

/-- The radio loop computes the start plus the per-item contributions and the
count of present, non-empty-string responses. -/
theorem radio_foldl_eq (rs : Responses) (l : List Item) (t : ℚ) (a : ℕ) :
    l.foldl (radioStep rs) (t, a) =
      (t + (l.map (radioContrib rs)).sum, a + l.countP (radioAnswered rs)) := by
  induction l generalizing t a with
  | nil => simp
  | cons x xs ih =>
    rw [List.foldl_cons]
    cases h : getResp rs x.key with
    | none => simp [radioStep, radioContrib, radioAnswered, h, ih, Prod.mk.injEq, add_assoc, add_comm, add_left_comm]
    | some v =>
      cases v with
      | str s =>
        by_cases hs : s = ""
        · subst hs
          simp [radioStep, radioContrib, radioAnswered, h, ih, Prod.mk.injEq, add_assoc, add_comm, add_left_comm]
        · simp [radioStep, radioContrib, radioAnswered, h, hs, ih, Prod.mk.injEq, add_assoc, add_comm, add_left_comm]
      | num q => simp [radioStep, radioContrib, radioAnswered, h, ih, Prod.mk.injEq, add_assoc, add_comm, add_left_comm]
      | bool b => simp [radioStep, radioContrib, radioAnswered, h, ih, Prod.mk.injEq, add_assoc, add_comm, add_left_comm]
      | null => simp [radioStep, radioContrib, radioAnswered, h, ih, Prod.mk.injEq, add_assoc, add_comm, add_left_comm]

/-- The yes/no loop computes the start plus the per-item contributions and
the count of present responses. -/
theorem yn_foldl_eq (rs : Responses) (l : List Item) (t : ℚ) (a : ℕ) :
    l.foldl (ynStep rs) (t, a) =
      (t + (l.map (ynContrib rs)).sum, a + l.countP (fun it => (getResp rs it.key).isSome)) := by
  induction l generalizing t a with
  | nil => simp
  | cons x xs ih =>
    rw [List.foldl_cons]
    cases h : getResp rs x.key with
    | none => simp [ynStep, ynContrib, h, ih, Prod.mk.injEq, add_assoc, add_comm, add_left_comm]
    | some v => simp [ynStep, ynContrib, h, ih, Prod.mk.injEq, add_assoc, add_comm, add_left_comm]

/-- The weighted-select loop computes the start plus the clamped
contributions, the per-item maxima, and the answered count. -/
theorem ws_foldl_eq (rs : Responses) (l : List Item) (t m : ℚ) (a : ℕ) :
    l.foldl (wsStep rs) (t, m, a) =
      (t + (l.map (wsContrib rs)).sum, m + (l.map maxOptValue).sum,
       a + l.countP (numAnswered rs)) := by
  induction l generalizing t m a with
  | nil => simp
  | cons x xs ih =>
    rw [List.foldl_cons]
    cases h : toNumOpt (getResp rs x.key) with
    | none => simp [wsStep, wsContrib, numAnswered, h, ih, Prod.mk.injEq, add_assoc, add_comm, add_left_comm]
    | some sel => simp [wsStep, wsContrib, numAnswered, h, ih, Prod.mk.injEq, add_assoc, add_comm, add_left_comm]

/-- Folding max over option values never drops below the start value. -/
theorem foldl_max_ge_init (l : List OptionDef) (m : ℚ) :
    m ≤ l.foldl (fun acc op => max acc (op.value.getD 0)) m := by
  induction l generalizing m with
  | nil => exact le_refl m
  | cons x xs ih => exact le_trans (le_max_left m (x.value.getD 0)) (ih _)

/-- The largest option value of an item is non-negative. -/
theorem maxOptValue_nonneg (it : Item) : 0 ≤ maxOptValue it :=
  foldl_max_ge_init it.options 0

/-- The weighted-select `max` (sum of per-item maxima) is non-negative. -/
theorem ws_max_sum_nonneg (l : List Item) : 0 ≤ (l.map maxOptValue).sum := by
  apply List.sum_nonneg
  intro x hx
  obtain ⟨it, _, rfl⟩ := List.mem_map.mp hx
  exact maxOptValue_nonneg it

/-- The sum-mode source loop adds the per-source numeric totals to the start. -/
theorem sum_sources_foldl (results : List KeyedResult) (ks : List String) (v : ℚ) :
    ks.foldl
      (fun v k =>
        match lookupLast results k with
        | none => v
        | some r =>
          match r.result.total? with
          | some t => v + t
          | none => v)
      v = v + (ks.map (sourceTotal results)).sum := by
  induction ks generalizing v with
  | nil => simp
  | cons k ks ih =>
    rw [List.foldl_cons]
    cases h : lookupLast results k with
    | none => simp [sourceTotal, h, ih, add_assoc, add_comm, add_left_comm]
    | some r =>
      cases ht : r.result.total? with
      | none => simp [sourceTotal, h, ht, ih, add_assoc, add_comm, add_left_comm]
      | some t => simp [sourceTotal, h, ht, ih, add_assoc, add_comm, add_left_comm]

/-- The percent-mode source loop accumulates the per-source totals and maxes. -/
theorem percent_sources_foldl (results : List KeyedResult) (ks : List String) (tm : ℚ × ℚ) :
    ks.foldl
      (fun (tm : ℚ × ℚ) k =>
        match lookupLast results k with
        | none => tm
        | some r => (tm.1 + (r.result.total?.getD 0), tm.2 + (r.result.max?.getD 0)))
      tm = (tm.1 + (ks.map (sourceTotal results)).sum, tm.2 + (ks.map (sourceMax results)).sum) := by
  induction ks generalizing tm with
  | nil => simp
  | cons k ks ih =>
    rw [List.foldl_cons]
    cases h : lookupLast results k with
    | none => simp [sourceTotal, sourceMax, h, ih, Prod.mk.injEq, add_assoc, add_comm, add_left_comm]
    | some r => simp [sourceTotal, sourceMax, h, ih, Prod.mk.injEq, add_assoc, add_comm, add_left_comm]

/-- A `null`-free instrument list evaluates without error to the plain flat
evaluation. -/
theorem evalFlatE_map_some (rs : Responses) (l : List Instrument) :
    evalFlatE rs (l.map some) = .ok (evalFlat l rs) := by
  induction l with
  | nil => rfl
  | cons x xs ih => simp [evalFlatE, evalFlat, ih, Except.map]

/-- A `null`-free sub-accordion list evaluates without error to the plain
sub-accordion evaluation. -/
theorem evalSubsE_map_some (rs : Responses) (subs : List SubAccordion) :
    evalSubsE rs (subs.map some) = .ok (evalSubs subs rs) := by
  induction subs with
  | nil => rfl
  | cons s ss ih => simp [evalSubsE, evalSubs, ih, Bind.bind, Except.bind, pure, Except.pure]

/-- A `null`-free category list evaluates without error to the plain category
evaluation. -/
theorem evalCategoriesE_map_some (rs : Responses) (cats : List Category) :
    evalCategoriesE rs (cats.map (fun c => some (catToE c))) =
      .ok (cats.map (fun c => evalCategory c rs)) := by
  induction cats with
  | nil => rfl
  | cons c cs ih =>
    simp only [catToE, subsToE] at ih
    simp [evalCategoriesE, catToE, subsToE, evalFlatE_map_some, evalSubsE_map_some, ih,
      evalCategory, Bind.bind, Except.bind, pure, Except.pure]

/-- Claim C1: for every numeric value and every band list, `bandFromCuts`
returns the first band in declaration order whose (possibly open-ended)
inclusive range contains the value — so on overlapping bands the
earlier-declared band wins, as the concrete overlap fixture shows — and when
no band matches (including the empty band list) it returns the empty
label/level pair; being a total function, it never throws. -/
theorem claim_C1_band_resolver :
    (∀ (v : ℚ) (bands : List Band),
      bandFromCuts v bands =
        (match bands.find? (bandMatches v) with
         | some b => { label := b.label.getD "", level := b.level.getD "",
                       min := b.min, max := b.max }
         | none => ({} : BandResult))) ∧
    bandFromCuts 5 bandsOverlap =
      { label := "A", level := "low", min := some 0, max := some 10 } ∧
    bandFromCuts 20 bandsOverlap = ({} : BandResult) ∧
    bandFromCuts 5 [] = ({} : BandResult) := by
  refine ⟨?_, by with_unfolding_all decide, by with_unfolding_all decide, rfl⟩
  intro v bands
  induction bands with
  | nil => rfl
  | cons b rest ih =>
    cases h : bandMatches v b with
    | true => simp [bandFromCuts, List.find?, h]
    | false => simp [bandFromCuts, List.find?, h, ih]

/-- Claim C2 counterexample: on the scenario-A fixture (4-item Likert,
scaleMax 4, items 2 and 3 reverse-scored, raw answers [1,1,1,1]) the engine's
total is 8, not the claimed 10. -/
theorem claim_C2_counterexample :
    (computeLikert instScenA respScenA).total = 8 ∧
    (computeLikert instScenA respScenA).total ≠ 10 := by
  with_unfolding_all decide

/-- Claim C2 as amended: on the scenario-A fixture the Likert evaluator
returns total 8 = 1 + (4 − 1) + (4 − 1) + 1 (each reverse-scored item
contributes scaleMax − rawValue, each other item its raw value), with 4
answered items and max 16. -/
theorem claim_C2_amended :
    computeLikert instScenA respScenA =
      { total := 8, answered := 4, max := 16, bands := [], band := {} } ∧
    instScenA.items.map (likertContrib respScenA 4) = [1, 4 - 1, 4 - 1, 1] := by
  with_unfolding_all decide

/-- Claim C3: for every weighted-select instrument and response map, the
total is the sum over answered items of the selection clamped to
[0, itemMaxOptionValue], the max is the sum of the per-item maximum option
values over all items, the percent is total/max × 100 (0 when max is 0), and
the band is resolved from the percent through the instrument's percent-band
table. -/
theorem claim_C3_weighted_select (inst : Instrument) (rs : Responses) :
    (computeWeightedSelect inst rs).total = (inst.items.map (wsContrib rs)).sum ∧
    (computeWeightedSelect inst rs).max = (inst.items.map maxOptValue).sum ∧
    (computeWeightedSelect inst rs).answered = inst.items.countP (numAnswered rs) ∧
    (computeWeightedSelect inst rs).percent =
      (if (computeWeightedSelect inst rs).max = 0 then 0
       else (computeWeightedSelect inst rs).total / (computeWeightedSelect inst rs).max * 100) ∧
    (computeWeightedSelect inst rs).band =
      bandFromCuts (computeWeightedSelect inst rs).percent inst.percentBands := by
  have hfold := ws_foldl_eq rs inst.items 0 0 0
  simp only [zero_add] at hfold
  have hmax : (0 : ℚ) ≤ (inst.items.map maxOptValue).sum := ws_max_sum_nonneg inst.items
  unfold computeWeightedSelect
  rw [hfold]
  refine ⟨rfl, rfl, rfl, ?_, rfl⟩
  by_cases h0 : (inst.items.map maxOptValue).sum = 0
  · simp [h0]
  · have hpos : (0 : ℚ) < (inst.items.map maxOptValue).sum := lt_of_le_of_ne hmax (Ne.symm h0)
    simp [h0, hpos]

/-- Claim C4: on the scenario-C fixture (two weighted-select rows, weights 1
and 2, maximum option value 3, selections 3 and 0) the draft renderer's
weighted compute emits score 3, max 9 (selected value and maximum each
multiplied by the row weight) and rounded percent 33. -/
theorem claim_C4_scenarioC : wsCompute rowsScenC = (3, 9, 33) := by
  with_unfolding_all decide

/-- Claim C5: a category with no summary rule gets no summary at all; a
sum-mode rule sums the numeric `total` fields of the named sources' results
(skipping absent results and results without a numeric total); a percent-mode
rule accumulates totals and maxes across the named sources and reports
percent = Σtotal/Σmax × 100 (0 when the accumulated max is not positive),
band-resolved through `percentBands || bands || []`; and on the scenario-E
fixture (sources with (total, max) = (6, 12) and (3, 9)) the percent is
300/7 ≈ 42.86. -/
theorem claim_C5_summary_rule :
    (∀ results, summarizeCategory none results = none) ∧
    (∀ (sd : SummaryDef) (results : List KeyedResult), sd.mode = "sum" →
      summarizeCategory (some sd) results =
        some { value := some ((sd.sources.map (sourceTotal results)).sum),
               percent := none,
               band := bandFromCuts ((sd.sources.map (sourceTotal results)).sum)
                 (sd.percentBands.getD (sd.bands.getD [])) }) ∧
    (∀ (sd : SummaryDef) (results : List KeyedResult), sd.mode = "percent" →
      summarizeCategory (some sd) results =
        some { value := none,
               percent := some (if (sd.sources.map (sourceMax results)).sum > 0
                 then (sd.sources.map (sourceTotal results)).sum /
                   (sd.sources.map (sourceMax results)).sum * 100
                 else 0),
               band := bandFromCuts
                 (if (sd.sources.map (sourceMax results)).sum > 0
                  then (sd.sources.map (sourceTotal results)).sum /
                    (sd.sources.map (sourceMax results)).sum * 100
                  else 0)
                 (sd.percentBands.getD (sd.bands.getD [])) }) ∧
    summarizeCategory (some sdPercentE) [krW1, krW2] =
      some { value := none, percent := some (300 / 7), band := {} } := by
  refine ⟨fun results => rfl, ?_, ?_, by with_unfolding_all decide⟩
  · intro sd results h
    simp [summarizeCategory, h, sum_sources_foldl, bandFromPercent]
  · intro sd results h
    simp [summarizeCategory, h, percent_sources_foldl, bandFromPercent]

/-- Claim C5 witness: the sum-mode and percent-mode branches applied to the
scenario-E fixtures (the sum-mode rule names one absent source and one source
without a numeric total, both skipped: 6 + 3 = 9). -/
theorem claim_C5_summary_rule_witness :
    summarizeCategory (some sdSumE) [krW1, krW2, krDemo] =
      some { value := some 9, percent := none, band := {} } ∧
    summarizeCategory (some sdPercentE) [krW1, krW2] =
      some { value := none, percent := some (300 / 7), band := {} } := by
  constructor
  · rw [claim_C5_summary_rule.2.1 sdSumE [krW1, krW2, krDemo] rfl]
    with_unfolding_all decide
  · rw [claim_C5_summary_rule.2.2.1 sdPercentE [krW1, krW2] rfl]
    with_unfolding_all decide

/-- Claim C6 counterexample: the dispatcher's fallback result for an
unrecognized type tag is tagged "unknown", not "unsupported" (its note does
read "Unsupported instrument type: …"). -/
theorem claim_C6_counterexample :
    computeInstrument instBogus [] = .unknown "Unsupported instrument type: quiz" ∧
    (computeInstrument instBogus []).typeTag = "unknown" ∧
    (computeInstrument instBogus []).typeTag ≠ "unsupported" := by
  with_unfolding_all decide

/-- Claim C6 as amended: an instrument whose type tag is not one of the seven
recognized kinds yields, without throwing, the result tagged "unknown" whose
note is "Unsupported instrument type: " followed by the tag; and the
instrument-evaluation loop is pointwise, so every sibling of any instrument
in a category's list yields exactly the result it would yield on its own. -/
theorem claim_C6_amended :
    (∀ (inst : Instrument) (rs : Responses), isRecognizedType inst.type = false →
      computeInstrument inst rs = .unknown ("Unsupported instrument type: " ++ inst.type)) ∧
    (∀ (pre post : List Instrument) (bad : Instrument) (rs : Responses),
      evalFlat (pre ++ bad :: post) rs =
        evalFlat pre rs ++
          { key := bad.key, title := bad.title, result := computeInstrument bad rs } ::
            evalFlat post rs) := by
  constructor
  · intro inst rs h
    simp only [isRecognizedType, Bool.or_eq_false_iff, beq_eq_false_iff_ne, ne_eq] at h
    obtain ⟨⟨⟨⟨⟨⟨h1, h2⟩, h3⟩, h4⟩, h5⟩, h6⟩, h7⟩ := h
    simp [computeInstrument, h1, h2, h3, h4, h5, h6, h7]
  · intro pre post bad rs
    simp [evalFlat]

/-- Claim C6 witness: the amended claim instantiated on the fixture category
[sibling, bogus] with an empty response map. -/
theorem claim_C6_amended_witness :
    computeInstrument instBogus [] =
      .unknown ("Unsupported instrument type: " ++ instBogus.type) ∧
    evalFlat ([instSibling] ++ instBogus :: []) [] =
      evalFlat [instSibling] [] ++
        { key := instBogus.key, title := instBogus.title,
          result := computeInstrument instBogus [] } :: evalFlat [] [] :=
  ⟨claim_C6_amended.1 instBogus [] (by with_unfolding_all decide),
   claim_C6_amended.2 [instSibling] [] instBogus []⟩

/-- Claim C7 counterexample: a Likert instrument with an empty item list
whose band table declares a band containing 0 resolves to that band's label
("Low"), not to the empty "no data" label the claim demands. -/
theorem claim_C7_counterexample :
    (computeLikert instC7 []).total = 0 ∧
    (computeLikert instC7 []).band.label = "Low" ∧
    (computeLikert instC7 []).band.label ≠ "" := by
  with_unfolding_all decide

/-- Claim C7 as amended: an instrument none of whose items has a numeric
response (in particular one with an empty item list) yields total 0,
answered 0, max per the instrument's usual formula, and the band obtained by
resolving 0 through the relevant band table — which is the empty-label band
exactly when no declared band contains 0; with totals and percent being exact
rationals, no field is NaN (the weighted-select percent is exactly 0). -/
theorem claim_C7_amended (inst : Instrument) (rs : Responses)
    (h : ∀ it ∈ inst.items, toNumOpt (getResp rs it.key) = none) :
    (computeLikert inst rs).total = 0 ∧
    (computeLikert inst rs).answered = 0 ∧
    (computeLikert inst rs).max =
      (inst.items.length : ℚ) * ((inst.likert.bind LikertCfg.scaleMax).getD 4) ∧
    (computeLikert inst rs).band =
      bandFromCuts 0 ((inst.likert.map LikertCfg.bands).getD []) ∧
    (computeWeightedSelect inst rs).total = 0 ∧
    (computeWeightedSelect inst rs).answered = 0 ∧
    (computeWeightedSelect inst rs).max = (inst.items.map maxOptValue).sum ∧
    (computeWeightedSelect inst rs).percent = 0 ∧
    (computeWeightedSelect inst rs).band = bandFromCuts 0 inst.percentBands := by
  have hsum0 : ∀ f : Responses → Item → ℚ,
      (∀ it, toNumOpt (getResp rs it.key) = none → f rs it = 0) →
      (inst.items.map (f rs)).sum = 0 := by
    intro f hf
    apply List.sum_eq_zero
    intro x hx
    obtain ⟨it, hit, rfl⟩ := List.mem_map.mp hx
    exact hf it (h it hit)
  have hcnt : inst.items.countP (numAnswered rs) = 0 := by
    apply List.countP_eq_zero.mpr
    intro it hit
    simp [numAnswered, h it hit]
  have hlt : (inst.items.map (likertContrib rs
      ((inst.likert.bind LikertCfg.scaleMax).getD 4))).sum = 0 := by
    apply List.sum_eq_zero
    intro x hx
    obtain ⟨it, hit, rfl⟩ := List.mem_map.mp hx
    simp [likertContrib, h it hit]
  have hws : (inst.items.map (wsContrib rs)).sum = 0 :=
    hsum0 wsContrib (by intro it hit; simp [wsContrib, hit])
  have hlik := likert_foldl_eq rs ((inst.likert.bind LikertCfg.scaleMax).getD 4) inst.items 0 0
  have hwsf := ws_foldl_eq rs inst.items 0 0 0
  simp only [zero_add] at hlik hwsf
  simp only [computeLikert, computeWeightedSelect]
  rw [hlik, hwsf]
  simp [hlt, hws, hcnt, bandFromPercent]

/-- Claim C7 witness: the amended claim on the unanswered one-item
weighted-select fixture (also run through the Likert evaluator). -/
theorem claim_C7_amended_witness :
    (computeLikert instC7w []).total = 0 ∧
    (computeLikert instC7w []).answered = 0 ∧
    (computeLikert instC7w []).max =
      (instC7w.items.length : ℚ) * ((instC7w.likert.bind LikertCfg.scaleMax).getD 4) ∧
    (computeLikert instC7w []).band =
      bandFromCuts 0 ((instC7w.likert.map LikertCfg.bands).getD []) ∧
    (computeWeightedSelect instC7w []).total = 0 ∧
    (computeWeightedSelect instC7w []).answered = 0 ∧
    (computeWeightedSelect instC7w []).max = (instC7w.items.map maxOptValue).sum ∧
    (computeWeightedSelect instC7w []).percent = 0 ∧
    (computeWeightedSelect instC7w []).band = bandFromCuts 0 instC7w.percentBands :=
  claim_C7_amended instC7w [] (by with_unfolding_all decide)

/-- Claim C8 counterexample: the radio evaluator, given the present but
non-numeric response "abc", counts the item as answered (answered = 1,
contributing 0) instead of treating it as absent as the claim demands. -/
theorem claim_C8_counterexample :
    isNumV (getResp respRadioX "q") = false ∧
    (computeRadio instRadioX respRadioX).answered = 1 ∧
    (computeRadio instRadioX respRadioX).total = 0 := by
  with_unfolding_all decide

/-- Claim C8 as amended: the Likert (and weighted-select, see C3) evaluator
treats a present non-numeric value as absent — it contributes 0 and is not
counted as answered; the radio evaluator excludes only a missing or
empty-string response and counts any other present value as answered, a
non-numeric one contributing `toNum(v, 0) = 0`; the yes/no evaluator counts
every present value as answered, scoring an unrecognized value as
unchecked. -/
theorem claim_C8_amended (inst : Instrument) (rs : Responses) :
    (computeLikert inst rs).answered = inst.items.countP (numAnswered rs) ∧
    (computeLikert inst rs).total =
      (inst.items.map (likertContrib rs ((inst.likert.bind LikertCfg.scaleMax).getD 4))).sum ∧
    (computeRadio inst rs).answered = inst.items.countP (radioAnswered rs) ∧
    (computeRadio inst rs).total = (inst.items.map (radioContrib rs)).sum ∧
    (computeYnList inst rs).answered =
      inst.items.countP (fun it => (getResp rs it.key).isSome) ∧
    (computeYnList inst rs).total = (inst.items.map (ynContrib rs)).sum := by
  have hlik := likert_foldl_eq rs ((inst.likert.bind LikertCfg.scaleMax).getD 4) inst.items 0 0
  have hrad := radio_foldl_eq rs inst.items 0 0
  have hyn := yn_foldl_eq rs inst.items 0 0
  simp only [zero_add] at hlik hrad hyn
  simp only [computeLikert, computeRadio, computeYnList]
  rw [hlik, hrad, hyn]
  exact ⟨rfl, rfl, rfl, rfl, rfl, rfl⟩

/-- Claim C9 counterexample: with height −170 cm and weight 70 kg (a
non-positive height the claim says must make BMI unavailable), the evaluator
computes BMI 24.2 and performs the band lookup. -/
theorem claim_C9_counterexample :
    (computeBmi instBmiX respBmiNeg).bmi = some (121 / 5) ∧
    (computeBmi instBmiX respBmiNeg).bmi ≠ none ∧
    (computeBmi instBmiX respBmiNeg).bmiBand.label = "computed" := by
  with_unfolding_all decide

/-- Claim C9 as amended: when both height and weight field keys are
configured and both responses are numeric and nonzero (negative values
included — the guard is truthiness, not positivity), the evaluator reports
BMI = weightKg / (heightCm/100)² rounded to one decimal and resolves it
against the BMI band table; when the field keys are missing, or either
response is missing, non-numeric or zero, BMI is reported unavailable and no
band lookup is attempted. -/
theorem claim_C9_amended :
    (∀ (inst : Instrument) (rs : Responses) (hk wk : String) (h w : ℚ),
      heightWeightKeys inst = some (hk, wk) →
      toNumOpt (getResp rs hk) = some h →
      toNumOpt (getResp rs wk) = some w →
      h ≠ 0 → w ≠ 0 →
      computeBmi inst rs =
        { bmi := some (bmiValue h w),
          bmiBand := bandFromCuts (bmiValue h w) inst.bmiBands }) ∧
    (∀ (inst : Instrument) (rs : Responses),
      heightWeightKeys inst = none →
      computeBmi inst rs = { bmi := none, bmiBand := {} }) ∧
    (∀ (inst : Instrument) (rs : Responses) (hk wk : String),
      heightWeightKeys inst = some (hk, wk) →
      (toNumOpt (getResp rs hk) = none ∨ toNumOpt (getResp rs hk) = some 0 ∨
       toNumOpt (getResp rs wk) = none ∨ toNumOpt (getResp rs wk) = some 0) →
      computeBmi inst rs = { bmi := none, bmiBand := {} }) := by
  refine ⟨?_, ?_, ?_⟩
  · intro inst rs hk wk h w hksome hh hw hh0 hw0
    simp [computeBmi, bmiBranch, hksome, hh, hw, bmiInputsTruthy, hh0, hw0]
  · intro inst rs hnone
    simp [computeBmi, bmiBranch, hnone]
  · intro inst rs hk wk hksome hcase
    have hfalse : bmiInputsTruthy (toNumOpt (getResp rs hk)) (toNumOpt (getResp rs wk)) = false := by
      rcases hcase with hc | hc | hc | hc
      · simp [bmiInputsTruthy, hc]
      · cases htw : toNumOpt (getResp rs wk) <;> simp [bmiInputsTruthy, hc, htw]
      · cases hth : toNumOpt (getResp rs hk) <;> simp [bmiInputsTruthy, hc, hth]
      · cases hth : toNumOpt (getResp rs hk) <;> simp [bmiInputsTruthy, hc, hth]
    simp [computeBmi, bmiBranch, hksome, hfalse]

/-- Claim C9 witness: the available branch on positive inputs (BMI 24.2,
banded) and the unavailable branch on a zero weight. -/
theorem claim_C9_amended_witness :
    computeBmi instBmiX respBmiPos =
      { bmi := some (bmiValue 170 70),
        bmiBand := bandFromCuts (bmiValue 170 70) instBmiX.bmiBands } ∧
    computeBmi instBmiX respBmiZero = { bmi := none, bmiBand := {} } :=
  ⟨claim_C9_amended.1 instBmiX respBmiPos "h" "w" 170 70
      (by with_unfolding_all decide) (by with_unfolding_all decide)
      (by with_unfolding_all decide) (by with_unfolding_all decide)
      (by with_unfolding_all decide),
   claim_C9_amended.2.2 instBmiX respBmiZero "h" "w" (by with_unfolding_all decide)
      (Or.inr (Or.inr (Or.inr (by with_unfolding_all decide))))⟩

/-- Claim C10 counterexample: an absent argument is not surfaced as a hard
precondition failure — `compute(undefined)` returns an ordinary empty result
tree — while a structurally present schema whose categories array holds a
`null` node throws a TypeError that escapes the entry point. -/
theorem claim_C10_counterexample :
    computeE .undef = .ok { sections := [], overall := .empty } ∧
    computeE argNullCategory = .error "TypeError: reading properties of null" := by
  with_unfolding_all decide

/-- Claim C10 as amended: the entry point never surfaces a hard failure for
a wholly absent or non-object argument — optional chaining degrades both to
the empty payload, producing the empty result tree — and for any payload
whose traversed schema nodes are all objects it returns the full result tree
without exception; only a `null` node inside a traversed array (see the
counterexample) escapes as a TypeError. -/
theorem claim_C10_amended :
    computeE .undef = .ok (compute none) ∧
    (∀ v : JSVal, computeE (.nonObj v) = .ok (compute none)) ∧
    (∀ (cfg : Config) (rs : Responses),
      computeE (.obj (some (cfgToE cfg)) (some rs)) =
        .ok (compute (some { config := some cfg, responses := some rs }))) := by
  refine ⟨rfl, fun v => rfl, ?_⟩
  intro cfg rs
  simp only [computeE, compute, cfgToE, Option.getD_some, Option.bind_some]
  rw [evalCategoriesE_map_some]
  rfl

end BrainThreat
